import Mathlib

/-!
Shallow embedding of the orchestration layer of `src/programs/main.c`
(the gzip-style command-line front end of the zstdmt library).

The external world is modelled explicitly:
* the codec engine (`MT_createCCtx`, `MT_compressCCtx`, `MT_isError`, ...)
  is abstracted by an `EngineBehavior` oracle saying whether context
  creation succeeds and whether the run's result code is an error;
* the file system (`lstat`, `fopen`, the interactive overwrite prompt)
  is abstracted by a `FileEnv` oracle per treated file;
* observable side effects of one `treat_file` call (stream opens/closes,
  `remove` calls, context creation/destruction, `panic`) are recorded in
  a `TreatEffects` record, and the global `exit_code` is threaded through.

C strings are modelled as `List Char` (no interior NUL bytes).
Machine `int` values coming from `atoi` are modelled as `Int`.
-/

namespace Zstdmt

/-- Exit code `E_OK` (0). -/
def E_OK : Nat := 0

/-- Exit code `E_ERROR` (1). -/
def E_ERROR : Nat := 1

/-- Exit code `E_WARNING` (2). -/
def E_WARNING : Nat := 2

/-- Mode constant `MODE_COMPRESS` (option `-z`, the default). -/
def MODE_COMPRESS : Nat := 1

/-- Mode constant `MODE_DECOMPRESS` (option `-d`). -/
def MODE_DECOMPRESS : Nat := 2

/-- Mode constant `MODE_LIST` (option `-l`). -/
def MODE_LIST : Nat := 3

/-- Mode constant `MODE_TEST` (option `-t`). -/
def MODE_TEST : Nat := 4

/-- Bound for the `-i` option (`MAX_ITERATIONS`). -/
def MAX_ITERATIONS : Int := 1000

/-- A C string (char array up to the terminating NUL). -/
abbrev CStr := List Char

/-- Direct translation of `has_suffix` from main.c: true iff `filename`
is at least as long as `suffix` and its last `strlen(suffix)` bytes
compare equal to `suffix`. -/
def has_suffix (filename suffix : CStr) : Bool :=
  if filename.length < suffix.length then false
  else decide (filename.drop (filename.length - suffix.length) = suffix)

/-- Direct translation of `add_suffix` from main.c: copy `filename` and
concatenate the run's suffix (allocation failure is out of model). -/
def add_suffix (opt_suffix : CStr) (filename : CStr) : CStr :=
  filename ++ opt_suffix

/-- Direct translation of `remove_suffix` from main.c: if the name carries
the suffix, truncate it at position `flen - xlen` (the NUL write);
otherwise append ".out" to the name. -/
def remove_suffix (opt_suffix : CStr) (filename : CStr) : CStr :=
  if has_suffix filename opt_suffix then
    filename.take (filename.length - opt_suffix.length)
  else
    filename ++ (".out".toList)

/-- The mutable option globals of main.c, gathered in one record.
`levelnumbers` is the local counter of digit options seen so far. -/
structure Opts where
  opt_mode : Nat
  opt_stdout : Bool
  opt_level : Int
  opt_force : Bool
  opt_keep : Bool
  opt_threads : Int
  opt_verbose : Int
  opt_iterations : Int
  opt_bufsize : Int
  opt_timings : Bool
  opt_suffix : CStr
  levelnumbers : Nat
  deriving Repr, DecidableEq

/-- How the program was invoked (`argv[0]` basename): the plain name, the
`UNZIP` alias, or the `ZCAT` alias. -/
inductive ProgName where
  | normal
  | unzip
  | zcat
  deriving Repr, DecidableEq

/-- Option-global state right before the `getopt` loop: the C initializers
of the option globals, the program-name defaults from main.c, and
`opt_threads = getcpucount()`. `defaultSuffix` stands for the `SUFFIX`
macro of platform.h and `cpucount` for `getcpucount()` (both external to
the visible source). -/
def initOpts (defaultSuffix : CStr) (cpucount : Int) (prog : ProgName) : Opts :=
  let base : Opts :=
    { opt_mode := MODE_COMPRESS
      opt_stdout := false
      opt_level := 3
      opt_force := false
      opt_keep := false
      opt_threads := cpucount
      opt_verbose := 1
      opt_iterations := 1
      opt_bufsize := 0
      opt_timings := false
      opt_suffix := defaultSuffix
      levelnumbers := 0 }
  match prog with
  | ProgName.normal => base
  | ProgName.unzip => { base with opt_mode := MODE_DECOMPRESS }
  | ProgName.zcat =>
      { base with opt_mode := MODE_DECOMPRESS, opt_stdout := true, opt_force := true }

/-- One parsed command-line option, restricted to the options that do not
terminate the process (`-h`, `-L`, `-V`, `-H` call exit(0) inside the
getopt loop and treat no file). `digit d` is one of `-0` .. `-9`;
`T`, `b`, `i` carry the `atoi(optarg)` value; `S` carries `optarg`. -/
inductive CmdOpt where
  | digit (d : Nat)
  | c
  | d
  | z
  | f
  | k
  | l
  | q
  | S (s : CStr)
  | t
  | v
  | T (n : Int)
  | b (n : Int)
  | i (n : Int)
  | B
  deriving Repr, DecidableEq

/-- One iteration of the `getopt` switch in main.c. -/
def processOpt (o : Opts) (opt : CmdOpt) : Opts :=
  match opt with
  | CmdOpt.digit d =>
      let lvl : Int := if o.levelnumbers = 0 then 0 else o.opt_level * 10
      { o with opt_level := lvl + (d : Int), levelnumbers := o.levelnumbers + 1 }
  | CmdOpt.c => { o with opt_stdout := true }
  | CmdOpt.d => { o with opt_mode := MODE_DECOMPRESS }
  | CmdOpt.z => { o with opt_mode := MODE_COMPRESS }
  | CmdOpt.f => { o with opt_force := true }
  | CmdOpt.k => { o with opt_keep := true }
  | CmdOpt.l => { o with opt_mode := MODE_LIST, opt_keep := true }
  | CmdOpt.q => { o with opt_verbose := 0 }
  | CmdOpt.S s => { o with opt_suffix := s }
  | CmdOpt.t => { o with opt_mode := MODE_TEST, opt_keep := true }
  | CmdOpt.v => { o with opt_verbose := o.opt_verbose + 1 }
  | CmdOpt.T n => { o with opt_threads := n }
  | CmdOpt.b n => { o with opt_bufsize := n }
  | CmdOpt.i n => { o with opt_iterations := n }
  | CmdOpt.B => { o with opt_timings := true }

/-- The `if (x < lo) x = lo; else if (x > hi) x = hi;` pattern used for
each numeric option in main.c. -/
def clampInt (lo hi x : Int) : Int :=
  if x < lo then lo else if x > hi then hi else x

/-- The "generic check of parameters" block of main.c (after the getopt
loop, before any file is treated): clamp `opt_level` into
`[LEVEL_MIN, LEVEL_MAX]`, `opt_threads` into `[1, THREAD_MAX]`,
`opt_iterations` into `[1, MAX_ITERATIONS]`, and scale a positive
`opt_bufsize` from MiB to bytes. `LEVEL_MIN`, `LEVEL_MAX`, `THREAD_MAX`
are macros of platform.h, external to the visible source, so they are
parameters here. -/
def clampOpts (LEVEL_MIN LEVEL_MAX THREAD_MAX : Int) (o : Opts) : Opts :=
  { o with
    opt_level := clampInt LEVEL_MIN LEVEL_MAX o.opt_level
    opt_threads := clampInt 1 THREAD_MAX o.opt_threads
    opt_iterations := clampInt 1 MAX_ITERATIONS o.opt_iterations
    opt_bufsize :=
      if o.opt_bufsize > 0 then o.opt_bufsize * (1024 * 1024) else o.opt_bufsize }

/-- Option state after the whole option-processing phase of `main`:
program-name defaults, the getopt loop over the parsed options, then the
generic parameter check. -/
def parsedOpts (defaultSuffix : CStr) (cpucount : Int) (prog : ProgName)
    (args : List CmdOpt) (LEVEL_MIN LEVEL_MAX THREAD_MAX : Int) : Opts :=
  clampOpts LEVEL_MIN LEVEL_MAX THREAD_MAX
    (args.foldl processOpt (initOpts defaultSuffix cpucount prog))

/-- Oracle for the external codec engine during one Job: whether
`MT_createCCtx`/`MT_createDCtx` returns a context (non-NULL), whether the
result of `MT_compressCCtx`/`MT_decompressDCtx` satisfies `MT_isError`,
and the `MT_getErrorString` text for that result. -/
structure EngineBehavior where
  createOk : Bool
  runFails : Bool
  runErrorString : String
  deriving Repr, DecidableEq

/-- Observable effects of one `do_compress`/`do_decompress` call: the
returned error message (`0` = success is `none`), whether a context was
created, whether it was freed, and whether the run call was made. -/
structure CodecEffects where
  errmsg : Option String
  ctxCreated : Bool
  ctxFreed : Bool
  runCalled : Bool
  deriving Repr, DecidableEq

/-- Direct translation of `do_compress` from main.c (the statistics
printing of step 4 has no bearing on the recorded effects):
return early if `errmsg` is already set; create the compression context,
returning an allocation message if that fails; run the engine, returning
its error string if `MT_isError` holds -- note that this return path does
not call `MT_freeCCtx`; otherwise free the context and return success. -/
def do_compress (engine : EngineBehavior) (errmsg_in : Option String) : CodecEffects :=
  if errmsg_in.isSome then
    { errmsg := errmsg_in, ctxCreated := false, ctxFreed := false, runCalled := false }
  else if !engine.createOk then
    { errmsg := some "Allocating compression context failed!"
      ctxCreated := false, ctxFreed := false, runCalled := false }
  else if engine.runFails then
    { errmsg := some engine.runErrorString
      ctxCreated := true, ctxFreed := false, runCalled := true }
  else
    { errmsg := none, ctxCreated := true, ctxFreed := true, runCalled := true }

/-- Direct translation of `do_decompress` from main.c; identical control
flow to `do_compress` with the decompression context calls. -/
def do_decompress (engine : EngineBehavior) (errmsg_in : Option String) : CodecEffects :=
  if errmsg_in.isSome then
    { errmsg := errmsg_in, ctxCreated := false, ctxFreed := false, runCalled := false }
  else if !engine.createOk then
    { errmsg := some "Allocating decompression context failed!"
      ctxCreated := false, ctxFreed := false, runCalled := false }
  else if engine.runFails then
    { errmsg := some engine.runErrorString
      ctxCreated := true, ctxFreed := false, runCalled := true }
  else
    { errmsg := none, ctxCreated := true, ctxFreed := true, runCalled := true }

/-- Oracle for the file system and user interaction during one
`treat_file` call: the `check_infile` result, whether the two `fopen`
calls succeed, the outcome of the overwrite probe/prompt when `-f` is
off, whether the shared output stream is a console (`IS_CONSOLE(fout)`),
and the engine behaviour of this Job. -/
structure FileEnv where
  infileErr : Option String
  finOpens : Bool
  overwriteAllow : Bool
  foutOpens : Bool
  foutIsConsole : Bool
  engine : EngineBehavior
  deriving Repr, DecidableEq

/-- Translation of `check_overwrite` from main.c: with `-f` the answer is
always yes; otherwise the combined outcome of the existence probe and the
interactive prompt (file absent, unopenable, or the user's y/n answer) is
the oracle's `overwriteAllow` bit. -/
def check_overwrite (opt_force : Bool) (env : FileEnv) : Bool :=
  if opt_force then true else env.overwriteAllow

/-- Observable effects of one `treat_file` call. `exit_code` is the value
of the global after the call; `finOpened` means `fopen(filename, "rb")`
returned a handle; `finClosed` means `fclose(fin)` ran; `foutOpened`
means `fopen(fn2, "wb")` returned a handle; `foutClosed` means
`fclose(local_fout)` ran; `codecCalled` means `do_compress` or
`do_decompress` was invoked; `inRemoved`/`outRemoved` mean
`remove(filename)`/`remove(fn2)` ran; `suffixSkip` and
`overwriteDeclined` mark which early-skip path, if any, returned;
`panicked` means `panic` aborted the process (exit status 1). -/
structure TreatEffects where
  exit_code : Nat
  errmsg : Option String
  finOpened : Bool
  finClosed : Bool
  foutOpened : Bool
  foutClosed : Bool
  codecCalled : Bool
  ctxCreated : Bool
  ctxFreed : Bool
  inRemoved : Bool
  outRemoved : Bool
  suffixSkip : Bool
  overwriteDeclined : Bool
  panicked : Bool
  deriving Repr, DecidableEq

/-- Effects of a `treat_file` path that did nothing observable beyond
leaving `exit_code` at `ec`. Early-return paths override the fields they
touch. -/
def noEffects (ec : Nat) : TreatEffects :=
  { exit_code := ec
    errmsg := none
    finOpened := false
    finClosed := false
    foutOpened := false
    foutClosed := false
    codecCalled := false
    ctxCreated := false
    ctxFreed := false
    inRemoved := false
    outRemoved := false
    suffixSkip := false
    overwriteDeclined := false
    panicked := false }

/-- Translation of the tail of `treat_file` (from the `fin == NULL` check
to the end): fail the Job if either stream is NULL (returning without
closing anything), otherwise run `do_compress`/`do_decompress`, record an
error in `exit_code`, close the input stream unless it is stdin, close
the output stream unless it is the shared global one, remove the input
file on success without `-k`, and remove the output file on error when
the output is not the shared global stream.
`finOpened`: a named input file was opened; `finNull`: `fin` is NULL
(named file whose open failed); `foutOpened`: `fopen(fn2,"wb")`
succeeded; `foutNull`: `local_fout` is NULL. -/
def treatFileTail (o : Opts) (global_fout : Bool) (env : FileEnv)
    (finOpened finNull foutOpened foutNull : Bool) (ec : Nat) : TreatEffects :=
  if finNull then
    { noEffects ec with
        errmsg := some "Opening infile failed."
        finOpened := finOpened, foutOpened := foutOpened }
  else if foutNull then
    { noEffects ec with
        errmsg := some "Opening outfile failed."
        finOpened := finOpened, foutOpened := foutOpened }
  else
    let codec :=
      if o.opt_mode = MODE_COMPRESS then do_compress env.engine none
      else do_decompress env.engine none
    { exit_code := if codec.errmsg.isSome then E_ERROR else ec
      errmsg := codec.errmsg
      finOpened := finOpened
      finClosed := finOpened
      foutOpened := foutOpened
      foutClosed := !global_fout
      codecCalled := true
      ctxCreated := codec.ctxCreated
      ctxFreed := codec.ctxFreed
      inRemoved := codec.errmsg.isNone && !o.opt_keep
      outRemoved := codec.errmsg.isSome && !global_fout
      suffixSkip := false
      overwriteDeclined := false
      panicked := false }

/-- Translation of `treat_file` from main.c over the `FileEnv` oracle.
Control flow follows the C function: reset `errmsg`; for a named file run
`check_infile` and return on failure, else `fopen` it (`-` selects stdin
and skips the checks); with a global output stream run `check_stdout`
(which panics on a console without `-f`); otherwise in compress mode skip
an already-suffixed input unless forcing, derive `fn2 = add_suffix`, and
return with `exit_code = E_WARNING` on a declined overwrite, else open
`fn2`; in decompress mode derive `fn2 = remove_suffix` and do the same;
in list/test mode without a global stream the switch has no case and
`local_fout` stays NULL. Then run the common tail. -/
def treatFile (o : Opts) (global_fout : Bool) (env : FileEnv)
    (filename : CStr) (ec : Nat) : TreatEffects :=
  let isStdin : Bool := decide (filename = "-".toList)
  if !isStdin && env.infileErr.isSome then
    { noEffects ec with errmsg := env.infileErr }
  else
    let finOpened : Bool := !isStdin && env.finOpens
    let finNull : Bool := !isStdin && !env.finOpens
    if global_fout then
      if env.foutIsConsole && !o.opt_force then
        { noEffects ec with finOpened := finOpened, panicked := true }
      else
        treatFileTail o global_fout env finOpened finNull false false ec
    else if o.opt_mode = MODE_COMPRESS then
      if has_suffix filename o.opt_suffix && !o.opt_force then
        { noEffects ec with finOpened := finOpened, suffixSkip := true }
      else if !(check_overwrite o.opt_force env) then
        { noEffects ec with
            exit_code := E_WARNING, finOpened := finOpened, overwriteDeclined := true }
      else
        treatFileTail o global_fout env finOpened finNull env.foutOpens (!env.foutOpens) ec
    else if o.opt_mode = MODE_DECOMPRESS then
      if !(check_overwrite o.opt_force env) then
        { noEffects ec with
            exit_code := E_WARNING, finOpened := finOpened, overwriteDeclined := true }
      else
        treatFileTail o global_fout env finOpened finNull env.foutOpens (!env.foutOpens) ec
    else
      treatFileTail o global_fout env finOpened finNull false true ec

/-- The file loop of `main` over a sequence of named inputs, each with its
file-system/engine oracle: `treat_file` is called on each in order,
threading the global `exit_code`; a `panic` inside a call aborts the
process with status 1 (no further file is treated). Returns the process
exit status and the per-file effects of the calls that ran. -/
def treatFiles (o : Opts) (global_fout : Bool) :
    List (CStr × FileEnv) → Nat → Nat × List TreatEffects
  | [], ec => (ec, [])
  | (fn, env) :: rest, ec =>
      let eff := treatFile o global_fout env fn ec
      if eff.panicked then (E_ERROR, [eff])
      else
        let r := treatFiles o global_fout rest eff.exit_code
        (r.1, eff :: r.2)

/-! Concrete oracles used to evaluate the model on specific runs. -/

/-- A concrete run suffix, standing for the `SUFFIX` macro. -/
def suffixZst : CStr := ".zst".toList

/-- Options of a plain invocation (no flags) on a 4-CPU host. -/
def defaultOpts : Opts := initOpts suffixZst 4 ProgName.normal

/-- Engine behaviour: creation and run both succeed. -/
def engineOk : EngineBehavior :=
  { createOk := true, runFails := false, runErrorString := "" }

/-- Engine behaviour: creation succeeds, the run's result code is an
error. -/
def engineRunFail : EngineBehavior :=
  { createOk := true, runFails := true, runErrorString := "Error: data error" }

/-- Engine behaviour: context creation returns NULL. -/
def engineCreateFail : EngineBehavior :=
  { createOk := false, runFails := false, runErrorString := "" }

/-- File oracle: regular readable file, both opens succeed, overwrite
allowed, engine succeeds. -/
def envOk : FileEnv :=
  { infileErr := none, finOpens := true, overwriteAllow := true,
    foutOpens := true, foutIsConsole := false, engine := engineOk }

/-- File oracle: as `envOk` but the codec run fails. -/
def envRunFail : FileEnv := { envOk with engine := engineRunFail }

/-- File oracle: as `envOk` but the overwrite prompt is declined. -/
def envDecline : FileEnv := { envOk with overwriteAllow := false }

/-- File oracle: as `envOk` but the codec context allocation fails. -/
def envCreateFail : FileEnv := { envOk with engine := engineCreateFail }

/-- File oracle: as `envOk` but `fopen(fn2, "wb")` fails. -/
def envFoutFails : FileEnv := { envOk with foutOpens := false }

/-- Claim C1: the code diverges from the claim. Treating two named files
where the first Job's codec run fails (setting `exit_code = E_ERROR`) and
the second Job is a declined overwrite, the declined-overwrite branch
executes the unconditional assignment `exit_code = E_WARNING`, so the
process exits 2, not 1 as the claim requires. -/
theorem treatFiles_error_then_decline_exits_warning :
    (treatFiles defaultOpts false
        [("a".toList, envRunFail), ("b".toList, envDecline)] E_OK).1
      = E_WARNING ∧ E_WARNING ≠ E_ERROR := by
  exact ⟨rfl, by decide⟩

/-- Claim C2: the code diverges from the claim. The opened input stream
is leaked (never closed) on three early-return paths of `treat_file`:
the already-suffixed compress-mode skip, the declined overwrite, and the
failure to open the output stream. -/
theorem treatFile_early_paths_leak_infile :
    ((treatFile defaultOpts false envOk "a.zst".toList E_OK).finOpened = true ∧
     (treatFile defaultOpts false envOk "a.zst".toList E_OK).finClosed = false ∧
     (treatFile defaultOpts false envOk "a.zst".toList E_OK).suffixSkip = true) ∧
    ((treatFile defaultOpts false envDecline "b".toList E_OK).finOpened = true ∧
     (treatFile defaultOpts false envDecline "b".toList E_OK).finClosed = false ∧
     (treatFile defaultOpts false envDecline "b".toList E_OK).overwriteDeclined = true) ∧
    ((treatFile defaultOpts false envFoutFails "b".toList E_OK).finOpened = true ∧
     (treatFile defaultOpts false envFoutFails "b".toList E_OK).finClosed = false ∧
     (treatFile defaultOpts false envFoutFails "b".toList E_OK).errmsg
       = some "Opening outfile failed.") := by
  decide

/-- Claim C3: the code diverges from the claim. When context creation
succeeds and the run's result code satisfies the error predicate,
`do_compress` and `do_decompress` return the error string before the
context-destruction step, so the created context is never freed. -/
theorem do_compress_run_failure_leaks_context :
    ((do_compress engineRunFail none).ctxCreated = true ∧
     (do_compress engineRunFail none).ctxFreed = false ∧
     (do_compress engineRunFail none).errmsg = some "Error: data error") ∧
    ((do_decompress engineRunFail none).ctxCreated = true ∧
     (do_decompress engineRunFail none).ctxFreed = false ∧
     (do_decompress engineRunFail none).errmsg = some "Error: data error") := by
  decide

set_option maxRecDepth 4096 in
/-- Helper: `treat_file` executes `remove(filename)` only on the success
path and only when the keep-input option is off. -/
theorem treatFile_keep_no_input_removal (o : Opts) (g : Bool) (env : FileEnv)
    (fn : CStr) (ec : Nat) (h : o.opt_keep = true) :
    (treatFile o g env fn ec).inRemoved = false := by
  unfold treatFile treatFileTail
  dsimp only
  repeat' split
  all_goals dsimp only [noEffects]
  all_goals first
    | rfl
    | exact absurd rfl (by assumption)
    | simp [h]

/-- Claim C4 (counterexample): a compress-mode Job skipped because the
input already carries the target suffix returns from `treat_file` without
touching `exit_code`, so the process status stays Ok instead of
escalating to at least Warning. -/
theorem suffix_skip_leaves_status_ok :
    (treatFile defaultOpts false envOk "a.zst".toList E_OK).suffixSkip = true ∧
    (treatFile defaultOpts false envOk "a.zst".toList E_OK).exit_code = E_OK ∧
    E_OK ≠ E_WARNING := by
  decide

set_option maxRecDepth 4096 in
/-- Claim C4 (amended): a Job skipped by a declined overwrite sets the
process status to Warning; a Job skipped because the compress-mode input
already carries the target suffix leaves the status unchanged; a Job
whose codec run succeeds leaves the status unchanged. -/
theorem skip_status_escalation (o : Opts) (g : Bool) (env : FileEnv)
    (fn : CStr) (ec : Nat) :
    ((treatFile o g env fn ec).overwriteDeclined = true →
        (treatFile o g env fn ec).exit_code = E_WARNING) ∧
    ((treatFile o g env fn ec).suffixSkip = true →
        (treatFile o g env fn ec).exit_code = ec) ∧
    ((treatFile o g env fn ec).codecCalled = true →
        (treatFile o g env fn ec).errmsg = none →
        (treatFile o g env fn ec).exit_code = ec) := by
  unfold treatFile treatFileTail
  dsimp only
  repeat' split
  all_goals dsimp only [noEffects]
  all_goals exact
    ⟨fun h1 => by
      first
        | rfl
        | exact Bool.noConfusion h1
        | exact Bool.noConfusion (show false = true by assumption),
     fun h2 => by
      first
        | rfl
        | exact Bool.noConfusion h2
        | exact Bool.noConfusion (show false = true by assumption),
     fun h3 h4 => by
      first
        | rfl
        | exact Bool.noConfusion h3
        | exact Bool.noConfusion (show false = true by assumption)
        | (rw [h4]; rfl)
        | (simp only [h4, Option.isSome_none] at *
           exact Bool.noConfusion (show false = true by assumption))⟩

/-- Witness for `skip_status_escalation`: a concrete declined overwrite
sets `exit_code` to `E_WARNING`. -/
theorem skip_status_escalation_witness :
    (treatFile defaultOpts false envDecline "b".toList E_OK).exit_code = E_WARNING :=
  (skip_status_escalation defaultOpts false envDecline "b".toList E_OK).1 (by decide)

/-- Claim C5 (counterexample): a compress Job whose context allocation
fails does not abort the process: `panic` is never reached, the failure
is recorded in the Job's error slot and in `exit_code`, and a following
file is still treated (the effects list has both entries). -/
theorem alloc_failure_does_not_abort :
    (treatFile defaultOpts false envCreateFail "a".toList E_OK).panicked = false ∧
    (treatFile defaultOpts false envCreateFail "a".toList E_OK).errmsg
      = some "Allocating compression context failed!" ∧
    (treatFiles defaultOpts false
        [("a".toList, envCreateFail), ("b".toList, envOk)] E_OK).2.length = 2 ∧
    (treatFiles defaultOpts false
        [("a".toList, envCreateFail), ("b".toList, envOk)] E_OK).1 = E_ERROR := by
  decide

set_option maxRecDepth 4096 in
/-- Helper: either `treat_file` returned before invoking the codec, or
the Job reached the codec step, in which case no panic happened, the
Job's error slot is the codec's returned message (from `do_compress` in
compress mode, `do_decompress` otherwise), and `exit_code` became
`E_ERROR` exactly when that message is set. -/
theorem treatFile_codec_facts (o : Opts) (g : Bool) (env : FileEnv)
    (fn : CStr) (ec : Nat) :
    (treatFile o g env fn ec).codecCalled = false ∨
    ((treatFile o g env fn ec).panicked = false ∧
     (treatFile o g env fn ec).errmsg =
       (if o.opt_mode = MODE_COMPRESS then do_compress env.engine none
        else do_decompress env.engine none).errmsg ∧
     (treatFile o g env fn ec).exit_code =
       (if (if o.opt_mode = MODE_COMPRESS then do_compress env.engine none
            else do_decompress env.engine none).errmsg.isSome = true
        then E_ERROR else ec)) := by
  unfold treatFile treatFileTail
  dsimp only
  repeat' split
  all_goals dsimp only [noEffects]
  all_goals first
    | exact Or.inl rfl
    | exact Or.inr ⟨rfl, rfl, rfl⟩
    | exact Bool.noConfusion (show false = true by assumption)

/-- Helper: when a treated file does not panic, the file loop records its
effects and continues with the remaining files, threading its
`exit_code`. -/
theorem treatFiles_cons_no_panic (o : Opts) (g : Bool) (fn : CStr) (env : FileEnv)
    (rest : List (CStr × FileEnv)) (ec : Nat)
    (hp : (treatFile o g env fn ec).panicked = false) :
    treatFiles o g ((fn, env) :: rest) ec
      = ((treatFiles o g rest (treatFile o g env fn ec).exit_code).1,
         treatFile o g env fn ec
           :: (treatFiles o g rest (treatFile o g env fn ec).exit_code).2) := by
  simp only [treatFiles]
  simp [hp]

/-- Claim C5 (amended): failure to allocate a codec context is recorded
as a per-Job error: the Job's error slot gets the allocation message,
`exit_code` escalates to `E_ERROR`, the process is not aborted
(`panic` is not called), and the file loop continues with the remaining
files. -/
theorem alloc_failure_is_per_job_error (o : Opts) (g : Bool) (env : FileEnv)
    (fn : CStr) (ec : Nat) (rest : List (CStr × FileEnv))
    (hc : env.engine.createOk = false) :
    ((treatFile o g env fn ec).codecCalled = true →
        (treatFile o g env fn ec).panicked = false) ∧
    ((treatFile o g env fn ec).codecCalled = true →
        (treatFile o g env fn ec).exit_code = E_ERROR) ∧
    ((treatFile o g env fn ec).codecCalled = true →
        (treatFile o g env fn ec).errmsg =
          some (if o.opt_mode = MODE_COMPRESS
                then "Allocating compression context failed!"
                else "Allocating decompression context failed!")) ∧
    ((treatFile o g env fn ec).codecCalled = true →
        (treatFiles o g ((fn, env) :: rest) ec).2
          = treatFile o g env fn ec
              :: (treatFiles o g rest (treatFile o g env fn ec).exit_code).2) := by
  have hcc : do_compress env.engine none =
      { errmsg := some "Allocating compression context failed!"
        ctxCreated := false, ctxFreed := false, runCalled := false } := by
    simp [do_compress, hc]
  have hdc : do_decompress env.engine none =
      { errmsg := some "Allocating decompression context failed!"
        ctxCreated := false, ctxFreed := false, runCalled := false } := by
    simp [do_decompress, hc]
  rcases treatFile_codec_facts o g env fn ec with hcf | ⟨hp, herr, hex⟩
  · refine ⟨fun h1 => ?_, fun h2 => ?_, fun h3 => ?_, fun h4 => ?_⟩
    · rw [hcf] at h1; exact Bool.noConfusion h1
    · rw [hcf] at h2; exact Bool.noConfusion h2
    · rw [hcf] at h3; exact Bool.noConfusion h3
    · rw [hcf] at h4; exact Bool.noConfusion h4
  · have hcons := treatFiles_cons_no_panic o g fn env rest ec hp
    refine ⟨fun _ => hp, fun _ => ?_, fun _ => ?_, fun _ => ?_⟩
    · rw [hex, hcc, hdc]
      by_cases hm : o.opt_mode = MODE_COMPRESS <;> simp [hm]
    · rw [herr, hcc, hdc]
      by_cases hm : o.opt_mode = MODE_COMPRESS <;> simp [hm]
    · rw [hcons]

/-- Witness for `alloc_failure_is_per_job_error` at a concrete Job. -/
theorem alloc_failure_is_per_job_error_witness :
    (treatFile defaultOpts false envCreateFail "a".toList E_OK).panicked = false ∧
    (treatFile defaultOpts false envCreateFail "a".toList E_OK).exit_code = E_ERROR ∧
    (treatFile defaultOpts false envCreateFail "a".toList E_OK).errmsg =
      some (if defaultOpts.opt_mode = MODE_COMPRESS
            then "Allocating compression context failed!"
            else "Allocating decompression context failed!") ∧
    (treatFiles defaultOpts false [("a".toList, envCreateFail)] E_OK).2
      = treatFile defaultOpts false envCreateFail "a".toList E_OK
          :: (treatFiles defaultOpts false []
                (treatFile defaultOpts false envCreateFail "a".toList E_OK).exit_code).2 :=
  have h := alloc_failure_is_per_job_error defaultOpts false envCreateFail
    "a".toList E_OK [] rfl
  ⟨h.1 (by decide), h.2.1 (by decide), h.2.2.1 (by decide), h.2.2.2 (by decide)⟩

set_option maxRecDepth 4096 in
/-- Claim C6: when the codec run of a Job over a named file fails and the
output is not the shared/global stream, `treat_file` removes the
destination file (`remove(fn2)`) before the Job completes; and on a
declined overwrite the destination is never opened for writing and never
removed or altered. -/
theorem codec_failure_removes_created_outfile (o : Opts) (g : Bool) (env : FileEnv)
    (fn : CStr) (ec : Nat) :
    (g = false → (treatFile o g env fn ec).codecCalled = true →
        (treatFile o g env fn ec).errmsg.isSome = true →
        (treatFile o g env fn ec).outRemoved = true) ∧
    ((treatFile o g env fn ec).overwriteDeclined = true →
        (treatFile o g env fn ec).foutOpened = false ∧
        (treatFile o g env fn ec).outRemoved = false) := by
  unfold treatFile treatFileTail
  dsimp only
  repeat' split
  all_goals dsimp only [noEffects]
  all_goals exact
    ⟨fun hg h1 h2 => by
      first
        | exact Bool.noConfusion h1
        | exact Bool.noConfusion h2
        | exact Bool.noConfusion (show false = true by assumption)
        | exact Bool.noConfusion (hg ▸ (show g = true by assumption))
        | (rw [h2, hg]; rfl),
     fun h3 => by
      first
        | exact ⟨rfl, rfl⟩
        | exact Bool.noConfusion h3
        | exact Bool.noConfusion (show false = true by assumption)⟩

/-- Witness for `codec_failure_removes_created_outfile`: a concrete
failing run removes the output file, and a concrete declined overwrite
never opens it. -/
theorem codec_failure_removes_created_outfile_witness :
    (treatFile defaultOpts false envRunFail "a".toList E_OK).outRemoved = true ∧
    (treatFile defaultOpts false envDecline "d".toList E_OK).foutOpened = false ∧
    (treatFile defaultOpts false envDecline "d".toList E_OK).outRemoved = false :=
  ⟨(codec_failure_removes_created_outfile defaultOpts false envRunFail
      "a".toList E_OK).1 rfl (by decide) (by decide),
   ((codec_failure_removes_created_outfile defaultOpts false envDecline
      "d".toList E_OK).2 (by decide)).1,
   ((codec_failure_removes_created_outfile defaultOpts false envDecline
      "d".toList E_OK).2 (by decide)).2⟩

/-- Helper: a name obtained by appending the suffix always carries the
suffix in the sense of `has_suffix`. -/
theorem has_suffix_append (n s : CStr) : has_suffix (n ++ s) s = true := by
  unfold has_suffix
  rw [if_neg]
  · rw [List.length_append, Nat.add_sub_cancel, List.drop_left]
    exact decide_eq_true rfl
  · rw [List.length_append]
    omega

/-- Claim C7: for every file name not already carrying the run's suffix,
stripping the suffix from the name obtained by appending it returns the
original name unchanged, and the decompressed-name derivation for such a
name appends the fixed ".out" marker instead of failing. -/
theorem remove_add_suffix_roundtrip (n s : CStr) (h : has_suffix n s = false) :
    remove_suffix s (add_suffix s n) = n ∧
    remove_suffix s n = n ++ ".out".toList := by
  constructor
  · unfold add_suffix remove_suffix
    rw [if_pos (has_suffix_append n s)]
    rw [List.length_append, Nat.add_sub_cancel, List.take_left]
  · unfold remove_suffix
    rw [if_neg]
    simp [h]

/-- Witness for `remove_add_suffix_roundtrip` at a concrete name and the
concrete ".zst" suffix. -/
theorem remove_add_suffix_roundtrip_witness :
    remove_suffix suffixZst (add_suffix suffixZst "file".toList) = "file".toList ∧
    remove_suffix suffixZst "file".toList = "file".toList ++ ".out".toList :=
  remove_add_suffix_roundtrip "file".toList suffixZst (by decide)

/-- Value of `opt_threads` written by the getopt loop starting from an
already-seen `-T` value `acc`: each later `-T` overwrites the earlier
one, every other option leaves it alone. -/
def lastThreadOptFrom (acc : Option Int) : List CmdOpt → Option Int
  | [] => acc
  | a :: rest =>
      lastThreadOptFrom
        (match a with
         | CmdOpt.T n => some n
         | _ => acc)
        rest

/-- The value carried by the last `-T` option of the argument list, when
one was given. -/
def lastThreadOpt (args : List CmdOpt) : Option Int :=
  lastThreadOptFrom none args

/-- Helper: an already-seen `-T` value survives unless overwritten. -/
theorem lastThreadOptFrom_some (rest : List CmdOpt) :
    ∀ m : Int, lastThreadOptFrom (some m) rest
      = some ((lastThreadOptFrom none rest).getD m) := by
  induction rest with
  | nil => intro m; rfl
  | cons b rest ih =>
      intro m
      cases b <;> simp only [lastThreadOptFrom] <;>
        first
          | exact ih m
          | simp [ih]

/-- Helper: after the getopt loop, `opt_threads` is the last `-T` value
when one was given, and the initial value otherwise. -/
theorem foldl_processOpt_threads (args : List CmdOpt) : ∀ o : Opts,
    (args.foldl processOpt o).opt_threads
      = (lastThreadOpt args).getD o.opt_threads := by
  induction args with
  | nil => intro o; rfl
  | cons a rest ih =>
      intro o
      cases a <;>
        simp only [List.foldl_cons, lastThreadOpt, lastThreadOptFrom] <;>
        first
          | (rw [ih]; rfl)
          | (rw [ih, lastThreadOptFrom_some]; simp [processOpt, lastThreadOpt])

/-- Helper: the `if (x < lo) x = lo; else if (x > hi) x = hi;` block lands
in `[lo, hi]` whenever `lo ≤ hi`. -/
theorem clampInt_mem (lo hi x : Int) (h : lo ≤ hi) :
    lo ≤ clampInt lo hi x ∧ clampInt lo hi x ≤ hi := by
  unfold clampInt
  repeat' split <;> omega

/-- Helper: before the getopt loop `opt_threads` holds `getcpucount()`
for every invocation name. -/
theorem initOpts_threads (dsuf : CStr) (cpu : Int) (prog : ProgName) :
    (initOpts dsuf cpu prog).opt_threads = cpu := by
  cases prog <;> rfl

/-- Claim C8 (counterexample): `-T -3` on a host with 4 CPUs: the
explicitly given sub-zero thread count is clamped to 1 by the generic
parameter check, not defaulted to the host's available parallelism 4. -/
theorem negative_thread_count_clamps_to_one :
    (parsedOpts suffixZst 4 ProgName.normal [CmdOpt.T (-3)] 1 22 128).opt_threads = 1 ∧
    (parsedOpts suffixZst 4 ProgName.normal [CmdOpt.T (-3)] 1 22 128).opt_threads ≠ 4 := by
  decide

/-- Claim C8 (amended): after option processing and before any Job runs,
the compression level is clamped into `[LEVEL_MIN, LEVEL_MAX]`, the
thread count into `[1, THREAD_MAX]` and the iteration count into
`[1, 1000]`; a missing thread count defaults to the host's available
parallelism (clamped into `[1, THREAD_MAX]`), while an explicitly given
sub-one thread count is clamped to 1, not replaced by the CPU count. -/
theorem numeric_options_clamped (o : Opts) (dsuf : CStr) (cpu : Int)
    (prog : ProgName) (args : List CmdOpt) (LEVEL_MIN LEVEL_MAX THREAD_MAX : Int)
    (ho : o = parsedOpts dsuf cpu prog args LEVEL_MIN LEVEL_MAX THREAD_MAX)
    (hl : LEVEL_MIN ≤ LEVEL_MAX) (ht : 1 ≤ THREAD_MAX) :
    (LEVEL_MIN ≤ o.opt_level ∧ o.opt_level ≤ LEVEL_MAX) ∧
    (1 ≤ o.opt_threads ∧ o.opt_threads ≤ THREAD_MAX) ∧
    (1 ≤ o.opt_iterations ∧ o.opt_iterations ≤ MAX_ITERATIONS) ∧
    (lastThreadOpt args = none → o.opt_threads = clampInt 1 THREAD_MAX cpu) ∧
    (∀ n : Int, lastThreadOpt args = some n → n < 1 → o.opt_threads = 1) := by
  subst ho
  unfold parsedOpts
  have hth : (args.foldl processOpt (initOpts dsuf cpu prog)).opt_threads
      = (lastThreadOpt args).getD cpu := by
    rw [foldl_processOpt_threads, initOpts_threads]
  refine ⟨clampInt_mem _ _ _ hl, clampInt_mem _ _ _ ht,
    clampInt_mem _ _ _ (by decide), ?_, ?_⟩
  · intro hn
    show clampInt 1 THREAD_MAX _ = clampInt 1 THREAD_MAX cpu
    rw [hth, hn]
    rfl
  · intro n hn hlt
    show clampInt 1 THREAD_MAX _ = 1
    rw [hth, hn, Option.getD_some]
    unfold clampInt
    rw [if_pos hlt]

/-- Witness for `numeric_options_clamped` at a concrete invocation with
`-T -3`, `LEVEL_MIN = 1`, `LEVEL_MAX = 22`, `THREAD_MAX = 128` on a
4-CPU host. -/
theorem numeric_options_clamped_witness :
    (1 ≤ (parsedOpts suffixZst 4 ProgName.normal [CmdOpt.T (-3)] 1 22 128).opt_level ∧
     (parsedOpts suffixZst 4 ProgName.normal [CmdOpt.T (-3)] 1 22 128).opt_level ≤ 22) ∧
    (parsedOpts suffixZst 4 ProgName.normal [CmdOpt.T (-3)] 1 22 128).opt_threads = 1 :=
  have h := numeric_options_clamped
    (parsedOpts suffixZst 4 ProgName.normal [CmdOpt.T (-3)] 1 22 128)
    suffixZst 4 ProgName.normal [CmdOpt.T (-3)] 1 22 128 rfl
    (by decide) (by decide)
  ⟨h.1, h.2.2.2.2 (-3) rfl (by decide)⟩

/-- Helper: each getopt case preserves the invariant that list or test
mode comes with the keep flag set: the only cases selecting those modes
(`-l`, `-t`) also set `opt_keep`, and no case clears it. -/
theorem processOpt_mode_keep (a : CmdOpt) (o : Opts)
    (h : o.opt_mode = MODE_LIST ∨ o.opt_mode = MODE_TEST → o.opt_keep = true) :
    (processOpt o a).opt_mode = MODE_LIST ∨ (processOpt o a).opt_mode = MODE_TEST →
      (processOpt o a).opt_keep = true := by
  cases a <;> simp only [processOpt]
  all_goals first
    | exact h
    | simp [ MODE_COMPRESS, MODE_DECOMPRESS, MODE_LIST, MODE_TEST]

/-- Helper: the keep-with-list/test invariant is preserved by the whole
getopt loop. -/
theorem foldl_processOpt_mode_keep (args : List CmdOpt) : ∀ o : Opts,
    (o.opt_mode = MODE_LIST ∨ o.opt_mode = MODE_TEST → o.opt_keep = true) →
    ((args.foldl processOpt o).opt_mode = MODE_LIST ∨
        (args.foldl processOpt o).opt_mode = MODE_TEST →
      (args.foldl processOpt o).opt_keep = true) := by
  induction args with
  | nil => intro o h; exact h
  | cons a rest ih => intro o h; exact ih _ (processOpt_mode_keep a o h)

/-- Claim C9: selecting list mode (-l) or test mode (-t) forces the
keep-input flag on: after option processing, a run whose final mode is
list or test has `opt_keep` set, and `treat_file` with `opt_keep` set
never executes `remove(filename)`, so a successfully processed source
file is never removed even when `-k` was not given. -/
theorem list_test_mode_keeps_input (dsuf : CStr) (cpu : Int) (prog : ProgName)
    (args : List CmdOpt) (LEVEL_MIN LEVEL_MAX THREAD_MAX : Int)
    (hmode :
      (parsedOpts dsuf cpu prog args LEVEL_MIN LEVEL_MAX THREAD_MAX).opt_mode
          = MODE_LIST ∨
      (parsedOpts dsuf cpu prog args LEVEL_MIN LEVEL_MAX THREAD_MAX).opt_mode
          = MODE_TEST) :
    (parsedOpts dsuf cpu prog args LEVEL_MIN LEVEL_MAX THREAD_MAX).opt_keep = true ∧
    ∀ (g : Bool) (env : FileEnv) (fn : CStr) (ec : Nat),
      (treatFile (parsedOpts dsuf cpu prog args LEVEL_MIN LEVEL_MAX THREAD_MAX)
        g env fn ec).inRemoved = false := by
  have hinit : (initOpts dsuf cpu prog).opt_mode = MODE_LIST ∨
      (initOpts dsuf cpu prog).opt_mode = MODE_TEST →
      (initOpts dsuf cpu prog).opt_keep = true := by
    cases prog <;> intro hc <;>
      simp [initOpts, MODE_COMPRESS, MODE_DECOMPRESS, MODE_LIST, MODE_TEST] at hc
  have hkeep :
      (parsedOpts dsuf cpu prog args LEVEL_MIN LEVEL_MAX THREAD_MAX).opt_keep
        = true :=
    foldl_processOpt_mode_keep args (initOpts dsuf cpu prog) hinit hmode
  exact ⟨hkeep, fun g env fn ec =>
    treatFile_keep_no_input_removal _ g env fn ec hkeep⟩

/-- Witness for `list_test_mode_keeps_input` at a concrete `-l` run. -/
theorem list_test_mode_keeps_input_witness :
    (parsedOpts suffixZst 4 ProgName.normal [CmdOpt.l] 1 22 128).opt_keep = true ∧
    (treatFile (parsedOpts suffixZst 4 ProgName.normal [CmdOpt.l] 1 22 128)
      true envOk "a".toList E_OK).inRemoved = false :=
  have h := list_test_mode_keeps_input suffixZst 4 ProgName.normal [CmdOpt.l]
    1 22 128 (Or.inl (by decide))
  ⟨h.1, h.2 true envOk "a".toList E_OK⟩

/-- Helper: once at least one digit option has been seen
(`levelnumbers ≠ 0`), each further digit option multiplies the
accumulated level by ten and adds itself. -/
theorem foldl_digits_level (ds : List Nat) : ∀ o : Opts, o.levelnumbers ≠ 0 →
    ((ds.map CmdOpt.digit).foldl processOpt o).opt_level
      = ds.foldl (fun (a : Int) (d : Nat) => a * 10 + (d : Int)) o.opt_level := by
  induction ds with
  | nil => intro o _; rfl
  | cons d rest ih =>
      intro o h
      simp only [List.map_cons, List.foldl_cons]
      rw [ih (processOpt o (CmdOpt.digit d)) (by simp [processOpt])]
      congr 1
      simp [processOpt, h]

/-- Claim C10: several single-digit level options on one command line
concatenate decimally: the first digit replaces the default level, each
further digit multiplies the accumulated level by 10 and adds itself; in
particular `-1 -5` yields level 15 before clamping, not 5. -/
theorem digit_options_concatenate (dsuf : CStr) (cpu : Int) (prog : ProgName)
    (d : Nat) (rest : List Nat) :
    (((d :: rest).map CmdOpt.digit).foldl processOpt
        (initOpts dsuf cpu prog)).opt_level
      = rest.foldl (fun (a : Int) (k : Nat) => a * 10 + (k : Int)) (d : Int) ∧
    (([1, 5].map CmdOpt.digit).foldl processOpt
        (initOpts dsuf cpu prog)).opt_level = 15 := by
  constructor
  · simp only [List.map_cons, List.foldl_cons]
    rw [foldl_digits_level rest _ (by cases prog <;> simp [processOpt, initOpts])]
    congr 1
    cases prog <;> simp [processOpt, initOpts]
  · cases prog <;> rfl

end Zstdmt
